import Mathlib

/-!
Verification of the AI-OS Agent Daemon core
(`src/core/services/aios-agent/agent.h`): shallow embedding of the
conversation store, the local fallback interpreter, the action dispatcher
(`agent_execute_action`), the chat pipeline (`agent_chat`) and the
per-frame connection handler (`client_handler`), together with theorems
about the spec's claims.

Modelling conventions:
* The Hardware Abstraction Layer (`hal.h`, external to this core) is an
  oracle record `Hal`: current device values for the `get` calls, and a
  return-code function per `set` call.  Every HAL call an execution
  performs is recorded in a trace (`List HalCall`).
* cJSON values are the inductive `JVal`; `cJSON_Parse` is a fuel-bounded
  recursive-descent parser mirroring cJSON on the fragment the daemon
  uses (objects, arrays, strings with simple escapes, `null`/`true`/`false`,
  decimal numbers with the fractional part truncated as `valueint` does;
  `\u` escapes and exponents are not modelled — no claim involves them).
* C byte buffers are modelled as unbounded `String`s except where a size
  limit changes behaviour: the 255-char `lower` buffer of
  `process_local_fallback`, the 1024-byte `action_json` buffer and the
  4-byte length prefix checked against `MAX_MESSAGE_SIZE` are modelled
  exactly.
* `system()` invocations (shutdown/reboot scheduling) are not HAL calls
  and do not appear in the HAL trace.
-/

namespace AiosAgent

/-! ## JSON values (cJSON model) -/

/-- A cJSON tree: the parse result of `cJSON_Parse` and the shape of the
request/response payloads. -/
inductive JVal where
  | jnull
  | jbool (b : Bool)
  | jnum (n : Int)
  | jstr (s : String)
  | jarr (xs : List JVal)
  | jobj (fields : List (String × JVal))

mutual

def beqJ : JVal → JVal → Bool
  | .jnull, .jnull => true
  | .jbool a, .jbool b => a == b
  | .jnum a, .jnum b => a == b
  | .jstr a, .jstr b => a == b
  | .jarr a, .jarr b => beqJL a b
  | .jobj a, .jobj b => beqJO a b
  | _, _ => false

def beqJL : List JVal → List JVal → Bool
  | [], [] => true
  | x :: xs, y :: ys => beqJ x y && beqJL xs ys
  | _, _ => false

def beqJO : List (String × JVal) → List (String × JVal) → Bool
  | [], [] => true
  | (k1, v1) :: xs, (k2, v2) :: ys => k1 == k2 && beqJ v1 v2 && beqJO xs ys
  | _, _ => false

end

mutual

theorem beqJ_eq : ∀ a b, beqJ a b = true → a = b
  | .jnull, .jnull, _ => rfl
  | .jbool _, .jbool _, h => by simp only [beqJ, beq_iff_eq] at h; rw [h]
  | .jnum _, .jnum _, h => by simp only [beqJ, beq_iff_eq] at h; rw [h]
  | .jstr _, .jstr _, h => by simp only [beqJ, beq_iff_eq] at h; rw [h]
  | .jarr a, .jarr b, h => by rw [beqJL_eq a b (by simpa [beqJ] using h)]
  | .jobj a, .jobj b, h => by rw [beqJO_eq a b (by simpa [beqJ] using h)]
  | .jnull, .jbool _, h => by simp [beqJ] at h
  | .jnull, .jnum _, h => by simp [beqJ] at h
  | .jnull, .jstr _, h => by simp [beqJ] at h
  | .jnull, .jarr _, h => by simp [beqJ] at h
  | .jnull, .jobj _, h => by simp [beqJ] at h
  | .jbool _, .jnull, h => by simp [beqJ] at h
  | .jbool _, .jnum _, h => by simp [beqJ] at h
  | .jbool _, .jstr _, h => by simp [beqJ] at h
  | .jbool _, .jarr _, h => by simp [beqJ] at h
  | .jbool _, .jobj _, h => by simp [beqJ] at h
  | .jnum _, .jnull, h => by simp [beqJ] at h
  | .jnum _, .jbool _, h => by simp [beqJ] at h
  | .jnum _, .jstr _, h => by simp [beqJ] at h
  | .jnum _, .jarr _, h => by simp [beqJ] at h
  | .jnum _, .jobj _, h => by simp [beqJ] at h
  | .jstr _, .jnull, h => by simp [beqJ] at h
  | .jstr _, .jbool _, h => by simp [beqJ] at h
  | .jstr _, .jnum _, h => by simp [beqJ] at h
  | .jstr _, .jarr _, h => by simp [beqJ] at h
  | .jstr _, .jobj _, h => by simp [beqJ] at h
  | .jarr _, .jnull, h => by simp [beqJ] at h
  | .jarr _, .jbool _, h => by simp [beqJ] at h
  | .jarr _, .jnum _, h => by simp [beqJ] at h
  | .jarr _, .jstr _, h => by simp [beqJ] at h
  | .jarr _, .jobj _, h => by simp [beqJ] at h
  | .jobj _, .jnull, h => by simp [beqJ] at h
  | .jobj _, .jbool _, h => by simp [beqJ] at h
  | .jobj _, .jnum _, h => by simp [beqJ] at h
  | .jobj _, .jstr _, h => by simp [beqJ] at h
  | .jobj _, .jarr _, h => by simp [beqJ] at h

theorem beqJL_eq : ∀ a b, beqJL a b = true → a = b
  | [], [], _ => rfl
  | x :: xs, y :: ys, h => by
      have h2 := h
      simp only [beqJL, Bool.and_eq_true] at h2
      rw [beqJ_eq x y h2.1, beqJL_eq xs ys h2.2]
  | [], _ :: _, h => by simp [beqJL] at h
  | _ :: _, [], h => by simp [beqJL] at h

theorem beqJO_eq : ∀ a b, beqJO a b = true → a = b
  | [], [], _ => rfl
  | (k1, v1) :: xs, (k2, v2) :: ys, h => by
      have h2 := h
      simp only [beqJO, Bool.and_eq_true, beq_iff_eq] at h2
      rw [h2.1.1, beqJ_eq v1 v2 h2.1.2, beqJO_eq xs ys h2.2]
  | [], _ :: _, h => by simp [beqJO] at h
  | _ :: _, [], h => by simp [beqJO] at h

end

mutual

theorem beqJ_refl : ∀ a, beqJ a a = true
  | .jnull => rfl
  | .jbool _ => by simp [beqJ]
  | .jnum _ => by simp [beqJ]
  | .jstr _ => by simp [beqJ]
  | .jarr a => by simpa [beqJ] using beqJL_refl a
  | .jobj a => by simpa [beqJ] using beqJO_refl a

theorem beqJL_refl : ∀ a, beqJL a a = true
  | [] => rfl
  | x :: xs => by simp [beqJL, beqJ_refl x, beqJL_refl xs]

theorem beqJO_refl : ∀ a, beqJO a a = true
  | [] => rfl
  | (_, v) :: xs => by simp [beqJO, beqJ_refl v, beqJO_refl xs]

end

instance : DecidableEq JVal := fun a b =>
  if h : beqJ a b = true then isTrue (beqJ_eq a b h)
  else isFalse (fun he => h (he ▸ beqJ_refl a))

/-! ## Character and string helpers -/

/-- ASCII lower-casing of one char, as the loop in `process_local_fallback`
does it (`*p >= 'A' && *p <= 'Z' ? *p + 32 : *p`). -/
def lowerChar (c : Char) : Char :=
  if 65 ≤ c.toNat ∧ c.toNat ≤ 90 then Char.ofNat (c.toNat + 32) else c

def lowerStr (s : String) : String := String.mk (s.toList.map lowerChar)

/-- Truncating copy, modelling `strncpy(dst, src, n)` into an `n+1` buffer. -/
def strTake (s : String) (n : Nat) : String := String.mk (s.toList.take n)

/-- Substring containment, modelling `strstr(hay, pat) != NULL`. -/
def containsSub (hay pat : String) : Bool :=
  hay.toList.tails.any (fun t => pat.toList.isPrefixOf t)

/-- Case-insensitive field lookup, modelling `cJSON_GetObjectItem` (which
compares keys case-insensitively); returns `none` on a non-object, as the
C call returns NULL. -/
def getObjectItem (j : JVal) (key : String) : Option JVal :=
  match j with
  | .jobj fs => (fs.find? (fun kv => lowerStr kv.1 == lowerStr key)).map (fun kv => kv.2)
  | _ => none

/-- The `valuestring` field: non-NULL only for string items. -/
def valuestring : JVal → Option String
  | .jstr s => some s
  | _ => none

/-- The `valueint` field: the number for numeric items (cJSON truncates the
double toward zero; we model integer payloads), 1/0 for booleans, 0
otherwise. -/
def valueint : JVal → Int
  | .jnum n => n
  | .jbool b => if b then 1 else 0
  | _ => 0

/-- Model of `cJSON_IsTrue` applied to a possibly-NULL item pointer. -/
def jIsTrue : Option JVal → Bool
  | some (.jbool true) => true
  | _ => false

/-! ## The cJSON parser model -/

/-- Skip leading bytes `<= 32`, as cJSON's `skip` does. -/
def skipWs : List Char → List Char
  | [] => []
  | c :: cs => if c.toNat ≤ 32 then skipWs cs else c :: cs

/-- One-character JSON string escapes (`\u` sequences are not modelled). -/
def escChar : Char → Option Char
  | '"' => some '"'
  | '\\' => some '\\'
  | '/' => some '/'
  | 'b' => some (Char.ofNat 8)
  | 'f' => some (Char.ofNat 12)
  | 'n' => some '\n'
  | 'r' => some '\r'
  | 't' => some '\t'
  | _ => none

/-- Parse the body of a JSON string (after the opening quote), returning
the decoded chars and the rest of the input. -/
def parseStrChars : List Char → Option (List Char × List Char)
  | [] => none
  | '"' :: rest => some ([], rest)
  | '\\' :: c :: rest =>
    match escChar c with
    | some e => (parseStrChars rest).map (fun sr => (e :: sr.1, sr.2))
    | none => none
  | '\\' :: [] => none
  | c :: rest => (parseStrChars rest).map (fun sr => (c :: sr.1, sr.2))

def digitVal (c : Char) : Nat := c.toNat - 48

def digitsToNat (ds : List Char) : Nat := ds.foldl (fun a c => a * 10 + digitVal c) 0

/-- Parse a JSON number: optional minus, decimal digits, optional
fractional part (discarded, matching `valueint` truncation toward zero). -/
def parseNumber (cs : List Char) : Option (JVal × List Char) :=
  let sgn : Bool × List Char :=
    match cs with
    | '-' :: rest => (true, rest)
    | _ => (false, cs)
  let ds := sgn.2.takeWhile Char.isDigit
  if ds.isEmpty then none
  else
    let rest1 := sgn.2.dropWhile Char.isDigit
    let rest2 :=
      match rest1 with
      | '.' :: r => r.dropWhile Char.isDigit
      | _ => rest1
    let n : Int := Int.ofNat (digitsToNat ds)
    some (.jnum (if sgn.1 then -n else n), rest2)

mutual

/-- Parse one JSON value; `fuel` bounds the recursion depth. -/
def parseV : Nat → List Char → Option (JVal × List Char)
  | 0, _ => none
  | fuel + 1, cs =>
    match skipWs cs with
    | [] => none
    | 'n' :: 'u' :: 'l' :: 'l' :: rest => some (.jnull, rest)
    | 't' :: 'r' :: 'u' :: 'e' :: rest => some (.jbool true, rest)
    | 'f' :: 'a' :: 'l' :: 's' :: 'e' :: rest => some (.jbool false, rest)
    | '"' :: rest => (parseStrChars rest).map (fun sr => (.jstr (String.mk sr.1), sr.2))
    | '{' :: rest =>
      match skipWs rest with
      | '}' :: r => some (.jobj [], r)
      | cs2 => (parseMembers fuel cs2).map (fun fr => (.jobj fr.1, fr.2))
    | '[' :: rest =>
      match skipWs rest with
      | ']' :: r => some (.jarr [], r)
      | cs2 => (parseElems fuel cs2).map (fun xr => (.jarr xr.1, xr.2))
    | c :: rest =>
      if c == '-' || c.isDigit then parseNumber (c :: rest) else none

/-- Parse one or more `"key": value` members followed by `}`. -/
def parseMembers : Nat → List Char → Option (List (String × JVal) × List Char)
  | 0, _ => none
  | fuel + 1, cs =>
    match cs with
    | '"' :: rest =>
      match parseStrChars rest with
      | none => none
      | some (key, r1) =>
        match skipWs r1 with
        | ':' :: r2 =>
          match parseV fuel r2 with
          | none => none
          | some (v, r3) =>
            match skipWs r3 with
            | ',' :: r4 =>
              (parseMembers fuel (skipWs r4)).map
                (fun fr => ((String.mk key, v) :: fr.1, fr.2))
            | '}' :: r4 => some ([(String.mk key, v)], r4)
            | _ => none
        | _ => none
    | _ => none

/-- Parse one or more array elements followed by `]`. -/
def parseElems : Nat → List Char → Option (List JVal × List Char)
  | 0, _ => none
  | fuel + 1, cs =>
    match parseV fuel cs with
    | none => none
    | some (v, r1) =>
      match skipWs r1 with
      | ',' :: r2 => (parseElems fuel r2).map (fun xr => (v :: xr.1, xr.2))
      | ']' :: r2 => some ([v], r2)
      | _ => none

end

/-- Model of `cJSON_Parse`: parse one value, ignore trailing input (the
default cJSON entry point does not require the whole buffer to be
consumed).  The fuel `length + 1` always suffices, since every recursive
descent step consumes at least one character. -/
def cJSON_Parse (s : String) : Option JVal :=
  (parseV (s.length + 1) s.toList).map (fun vr => vr.1)

/-! ## Hardware Abstraction Layer oracle -/

/-- One call into the HAL (`hal.h`), as recorded in an execution trace. -/
inductive HalCall where
  | brightnessGet
  | brightnessSet (level : Int)
  | volumeGet
  | volumeSet (level : Int)
  | muteSet (m : Bool)
  | wifiSet (e : Bool)
  | bluetoothSet (e : Bool)
  | suspendDev
  | batteryGet
  | systemInfoGet
  | appLaunch (name : String)
deriving DecidableEq

/-- Whether a call is one of the device `set` calls the fallback
interpreter can issue. -/
def isSetCall : HalCall → Bool
  | .brightnessSet _ => true
  | .volumeSet _ => true
  | .muteSet _ => true
  | .wifiSet _ => true
  | .bluetoothSet _ => true
  | _ => false

def countCall (c : HalCall) : List HalCall → Nat
  | [] => 0
  | x :: xs => (if x = c then 1 else 0) + countCall c xs

structure BatteryInfo where
  level : Int
  status : String

structure SystemInfo where
  hostname : String
  kernel : String
  memory_total_kb : Int
  memory_free_kb : Int
  uptime_seconds : Int

/-- The HAL as an oracle: current values answered by the `get` calls,
together with the return code each `set`-style call reports (`0` means
success, nonzero failure, per `hal.h`). -/
structure Hal where
  brightness : Int
  volume : Int
  battery : BatteryInfo
  sysinfo : SystemInfo
  timeStr : String
  dateStr : String
  brightness_set_ret : Int → Int
  volume_set_ret : Int → Int
  mute_set_ret : Bool → Int
  wifi_set_ret : Bool → Int
  bluetooth_set_ret : Bool → Int
  suspend_ret : Int
  app_launch_ret : String → Int

/-! ## Action dispatcher (`agent_execute_action`) -/

/-- The `action_result_t` struct. -/
structure ActionResult where
  success : Bool
  message : String
  data : Option JVal

/-- Return value, result struct and HAL trace of one dispatcher run. -/
structure ExecOut where
  ret : Int
  result : ActionResult
  calls : List HalCall

/-- The initial state of the result struct: `agent_execute_action` begins
with `success = false`, `message = "Unknown action"`, `data = NULL`. -/
def unknownResult : ActionResult := ⟨false, "Unknown action", none⟩

/-- Core of `agent_execute_action`, after `cJSON_Parse`: the closed switch
over the intent vocabulary.  `parsed = none` is the parse-failure path
(return `-1` with the initial result). -/
def execAction (hal : Hal) (parsed : Option JVal) : ExecOut :=
  match parsed with
  | none => ⟨-1, unknownResult, []⟩
  | some json =>
    match (getObjectItem json "action").bind valuestring with
    | none => ⟨-1, unknownResult, []⟩
    | some act =>
      if act = "brightness" then
        match getObjectItem json "level" with
        | some level =>
          let v := valueint level
          let r := hal.brightness_set_ret v
          ⟨0, ⟨r == 0, "Brightness set to " ++ toString v ++ "%", none⟩, [.brightnessSet v]⟩
        | none => ⟨0, unknownResult, []⟩
      else if act = "volume" then
        match getObjectItem json "level" with
        | some level =>
          let v := valueint level
          let r := hal.volume_set_ret v
          ⟨0, ⟨r == 0, "Volume set to " ++ toString v ++ "%", none⟩, [.volumeSet v]⟩
        | none => ⟨0, unknownResult, []⟩
      else if act = "mute" then
        let m :=
          match getObjectItem json "muted" with
          | some muted => jIsTrue (some muted)
          | none => true
        ⟨0, ⟨true, if m then "Muted" else "Unmuted", none⟩, [.muteSet m]⟩
      else if act = "wifi" then
        let e := jIsTrue (getObjectItem json "enabled")
        ⟨0, ⟨true, if e then "WiFi enabled" else "WiFi disabled", none⟩, [.wifiSet e]⟩
      else if act = "bluetooth" then
        let e := jIsTrue (getObjectItem json "enabled")
        ⟨0, ⟨true, if e then "Bluetooth enabled" else "Bluetooth disabled", none⟩, [.bluetoothSet e]⟩
      else if act = "shutdown" then
        ⟨0, ⟨true, "Shutting down...", none⟩, []⟩
      else if act = "reboot" then
        ⟨0, ⟨true, "Rebooting...", none⟩, []⟩
      else if act = "suspend" then
        ⟨0, ⟨true, "Suspended", none⟩, [.suspendDev]⟩
      else if act = "launch" then
        match (getObjectItem json "app").bind valuestring with
        | some app =>
          let r := hal.app_launch_ret app
          ⟨0, ⟨r == 0, (if r == 0 then "Launched " else "Failed to launch ") ++ app, none⟩,
            [.appLaunch app]⟩
        | none => ⟨0, unknownResult, []⟩
      else if act = "info" then
        let i := hal.sysinfo
        ⟨0, ⟨true, "System info retrieved",
          some (.jobj [("hostname", .jstr i.hostname), ("kernel", .jstr i.kernel),
            ("memory_mb", .jnum (Int.tdiv i.memory_total_kb 1024)),
            ("memory_free_mb", .jnum (Int.tdiv i.memory_free_kb 1024)),
            ("uptime_hours", .jnum (Int.tdiv i.uptime_seconds 3600))])⟩,
          [.systemInfoGet]⟩
      else ⟨0, unknownResult, []⟩

/-- The full `agent_execute_action(action_json, result)`: parse, then
dispatch. -/
def agent_execute_action (hal : Hal) (action_json : String) : ExecOut :=
  execAction hal (cJSON_Parse action_json)

/-! ## Local fallback interpreter (`process_local_fallback`) -/

/-- Response text and HAL trace of a fallback-interpreter run. -/
structure FbOut where
  response : String
  calls : List HalCall

/-- The capability-list reply of the final `snprintf`. -/
def genericHelp : String :=
  "I can help with: brightness, volume, battery, time, date, wifi, shutdown, reboot"

/-- Model of `sscanf(lower, "%*[^0-9]%d", &level)`: the leading
non-digit set must match at least one char, then a decimal run is read;
on any matching failure `level` keeps its previous value (`-1`, i.e.
`none` here). -/
def scanLevel (s : String) : Option Int :=
  match s.toList with
  | [] => none
  | c :: _ =>
    if c.isDigit then none
    else
      match s.toList.dropWhile (fun a => !a.isDigit) with
      | [] => none
      | ds => some (Int.ofNat (digitsToNat (ds.takeWhile Char.isDigit)))

/-- The `{"action":NAME,"level":N}` reply emitted by `snprintf`. -/
def levelIntent (name : String) (level : Int) : String :=
  "\x7b\"action\":\"" ++ name ++ "\",\"level\":" ++ toString level ++ "\x7d"

/-- The `{"action":"mute","muted":true}` reply. -/
def muteIntentStr : String := "\x7b\"action\":\"mute\",\"muted\":true\x7d"

/-- The `{"action":"wifi","enabled":BOOL}` reply. -/
def wifiIntentStr (e : Bool) : String :=
  "\x7b\"action\":\"wifi\",\"enabled\":" ++ (if e then "true" else "false") ++ "\x7d"

/-- The upper clamp `if (level > 100) level = 100`. -/
def clamp100 (v : Int) : Int := if v > 100 then 100 else v

/-- Shared tail of the brightness/volume branches: the `level >= 0` guard,
the upper clamp, the HAL `set` and the intent reply; a negative level
falls through to the generic capability reply. -/
def finishLevel (name : String) (mk : Int → HalCall) (gets : List HalCall)
    (level : Int) : FbOut :=
  if 0 ≤ level then
    let l := clamp100 level
    ⟨levelIntent name l, gets ++ [mk l]⟩
  else ⟨genericHelp, gets⟩

/-- The keyword-matching fallback interpreter. -/
def process_local_fallback (hal : Hal) (input : String) : FbOut :=
  let lower := lowerStr (strTake input 255)
  if containsSub lower "brightness" then
    if containsSub lower "up" || containsSub lower "increase" then
      finishLevel "brightness" .brightnessSet [.brightnessGet] (hal.brightness + 20)
    else if containsSub lower "down" || containsSub lower "decrease" then
      finishLevel "brightness" .brightnessSet [.brightnessGet] (hal.brightness - 20)
    else
      match scanLevel lower with
      | some v => finishLevel "brightness" .brightnessSet [] v
      | none => ⟨genericHelp, []⟩
  else if containsSub lower "volume" then
    if containsSub lower "up" then
      finishLevel "volume" .volumeSet [.volumeGet] (hal.volume + 10)
    else if containsSub lower "down" then
      finishLevel "volume" .volumeSet [.volumeGet] (hal.volume - 10)
    else if containsSub lower "mute" then
      ⟨muteIntentStr, [.muteSet true]⟩
    else
      match scanLevel lower with
      | some v => finishLevel "volume" .volumeSet [] v
      | none => ⟨genericHelp, []⟩
  else if containsSub lower "battery" then
    ⟨"Battery: " ++ toString hal.battery.level ++ "%, Status: " ++ hal.battery.status,
      [.batteryGet]⟩
  else if containsSub lower "time" || containsSub lower "clock" then
    ⟨"The time is " ++ hal.timeStr, []⟩
  else if containsSub lower "date" then
    ⟨"Today is " ++ hal.dateStr, []⟩
  else if containsSub lower "shutdown" || containsSub lower "power off" then
    ⟨"\x7b\"action\":\"shutdown\"\x7d", []⟩
  else if containsSub lower "reboot" || containsSub lower "restart" then
    ⟨"\x7b\"action\":\"reboot\"\x7d", []⟩
  else if containsSub lower "wifi" then
    let en := containsSub lower "on" || containsSub lower "enable"
    let dis := containsSub lower "off" || containsSub lower "disable"
    if en || dis then
      ⟨wifiIntentStr en, [.wifiSet en]⟩
    else ⟨genericHelp, []⟩
  else ⟨genericHelp, []⟩

/-! ## Configuration and conversation store -/

def MAX_MESSAGE_SIZE : Nat := 65536

def MAX_HISTORY_SIZE : Nat := 20

inductive Provider where
  | openai
  | anthropic
  | localOnly
deriving DecidableEq

/-- The `agent_config_t` struct. -/
structure AgentConfig where
  provider : Provider
  model : String
  openai_api_key : String
  anthropic_api_key : String
  confirm_dangerous : Bool

/-- One `chat_message_t` entry of `g_history`. -/
structure ChatMsg where
  role : String
  content : String
deriving DecidableEq

/-! ## Chat pipeline (`agent_chat`) -/

/-- Extraction of the action fragment from the assistant text:
`strchr(s, '\x7b')` to `strrchr(s, '\x7d')`, kept only when the end is
strictly after the start and the fragment fits the 1024-byte
`action_json` buffer. -/
def extractActionJson (s : String) : Option String :=
  let cs := s.toList
  match cs.findIdx? (· == '\x7b'), cs.reverse.findIdx? (· == '\x7d') with
  | some i, some jr =>
    let j := cs.length - 1 - jr
    if i < j then
      let len := j - i + 1
      if len < 1024 then some (String.mk ((cs.drop i).take len)) else none
    else none
  | _, _ => none

/-- Everything one `agent_chat` call produces: the response text, the
action result if an action fragment was extracted and executed, the HAL
trace, and the new history. -/
structure ChatOut where
  response : String
  actionResult : Option ActionResult
  calls : List HalCall
  history : List ChatMsg

/-- Model of `agent_chat`.  `remote` is the outcome oracle of
`call_openai` (`some reply` = HTTP call succeeded with that assistant
text, `none` = any failure); the remote path is attempted only when the
provider is OpenAI and a key is configured, otherwise — and on remote
failure — `process_local_fallback` answers.  `actionResult = none`
models the caller's zero-initialised `action_result_t` being left
untouched (empty message) because no fragment was extracted. -/
def agent_chat (cfg : AgentConfig) (hal : Hal) (remote : Option String)
    (history : List ChatMsg) (input : String) : ChatOut :=
  let fb := process_local_fallback hal input
  let ai : String × List HalCall :=
    if cfg.provider = Provider.openai ∧ cfg.openai_api_key ≠ "" then
      match remote with
      | some r => (r, [])
      | none => (fb.response, fb.calls)
    else (fb.response, fb.calls)
  let ex : Option ActionResult × List HalCall :=
    match extractActionJson ai.1 with
    | some aj =>
      let e := agent_execute_action hal aj
      (some e.result, e.calls)
    | none => (none, [])
  let h1 := if MAX_HISTORY_SIZE ≤ history.length then history.tail else history
  let h2 := h1 ++ [⟨"user", input⟩]
  let h3 := if h2.length < MAX_HISTORY_SIZE then h2 ++ [⟨"assistant", ai.1⟩] else h2
  ⟨ai.1, ex.1, ai.2 ++ ex.2, h3⟩

/-- The history left by a sequence of `chat` commands starting from the
empty store. -/
def runChats (cfg : AgentConfig) (hal : Hal) (remote : Option String)
    (inputs : List String) : List ChatMsg :=
  inputs.foldl (fun h i => (agent_chat cfg hal remote h i).history) []

/-! ## Connection handler (`client_handler`), one frame -/

/-- What the handler does with one frame: close the connection without
sending anything, or send the JSON response. -/
inductive FrameResult where
  | closed
  | replied (resp : JVal)
deriving DecidableEq

structure FrameOut where
  outcome : FrameResult
  history : List ChatMsg
  calls : List HalCall

/-- One iteration of the `client_handler` loop, given the frame's 4-byte
length prefix (already `ntohl`ed) and its payload bytes.  Closing before
any `send` models the `break` paths; every other path sends exactly one
response object. -/
def client_handler_frame (cfg : AgentConfig) (hal : Hal) (remote : Option String)
    (history : List ChatMsg) (declaredLen : Nat) (payload : String) : FrameOut :=
  if MAX_MESSAGE_SIZE < declaredLen then ⟨.closed, history, []⟩
  else
    match cJSON_Parse payload with
    | none => ⟨.closed, history, []⟩
    | some request =>
      match (getObjectItem request "cmd").bind valuestring with
      | none => ⟨.replied (.jobj []), history, []⟩
      | some cmd =>
        if cmd = "chat" then
          match (getObjectItem request "text").bind valuestring with
          | some text =>
            let c := agent_chat cfg hal remote history text
            let base := [("status", JVal.jstr "ok"), ("response", JVal.jstr c.response)]
            let fields :=
              match c.actionResult with
              | some ar =>
                let arf := [("success", JVal.jbool ar.success), ("message", JVal.jstr ar.message)]
                let arf :=
                  match ar.data with
                  | some d => arf ++ [("data", d)]
                  | none => arf
                base ++ [("action_result", JVal.jobj arf)]
              | none => base
            ⟨.replied (.jobj fields), c.history, c.calls⟩
          | none => ⟨.replied (.jobj []), history, []⟩
        else if cmd = "action" then
          match getObjectItem request "action" with
          | some act =>
            -- the C code prints the item with cJSON_PrintUnformatted and
            -- re-parses it inside agent_execute_action; print-then-parse of a
            -- cJSON tree is the identity, so the tree is passed directly
            let e := execAction hal (some act)
            ⟨.replied (.jobj [("result", .jobj [("success", .jbool e.result.success),
              ("message", .jstr e.result.message)])]), history, e.calls⟩
          | none => ⟨.replied (.jobj []), history, []⟩
        else if cmd = "status" then
          let i := hal.sysinfo
          ⟨.replied (.jobj [("status", .jstr "ok"), ("running", .jbool true),
            ("ai_configured",
              .jbool (cfg.openai_api_key != "" || cfg.anthropic_api_key != "")),
            ("system", .jobj [("hostname", .jstr i.hostname), ("kernel", .jstr i.kernel),
              ("memory_mb", .jnum (Int.tdiv i.memory_total_kb 1024)),
              ("memory_free_mb", .jnum (Int.tdiv i.memory_free_kb 1024))])]),
            history, [.systemInfoGet]⟩
        else if cmd = "clear" then
          ⟨.replied (.jobj [("status", .jstr "ok")]), [], []⟩
        else ⟨.replied (.jobj []), history, []⟩

/-- Run a connection through a list of frames, stopping (as the C loop
does) at the first frame that closes the connection. -/
def runFrames (cfg : AgentConfig) (hal : Hal) (remote : Option String) :
    List ChatMsg → List (Nat × String) → List FrameResult × List ChatMsg
  | h, [] => ([], h)
  | h, (l, p) :: rest =>
    let f := client_handler_frame cfg hal remote h l p
    match f.outcome with
    | .closed => ([.closed], f.history)
    | .replied r =>
      let tl := runFrames cfg hal remote f.history rest
      (.replied r :: tl.1, tl.2)

/-! ## Spec-side conversation store (for the refinement comparison) -/

/-- Drop the oldest turn whose role is not `"system"` (the system prompt,
if present, is exempt from eviction). -/
def removeOldestNonSystem : List ChatMsg → List ChatMsg
  | [] => []
  | m :: ms => if m.role = "system" then m :: removeOldestNonSystem ms else ms

/-- Modelled from the spec (§3 ConversationStore), for comparison with the
code's history update: "length never exceeds capacity; when a new turn
would exceed it, the oldest non-system turn is evicted first (FIFO
eviction, system prompt if present is exempt)". -/
def specFifoAppend (cap : Nat) (h : List ChatMsg) (t : ChatMsg) : List ChatMsg :=
  if h.length < cap then h ++ [t]
  else removeOldestNonSystem h ++ [t]

/-! ## Concrete fixtures used by witnesses and counterexamples -/

/-- A concrete, everywhere-succeeding HAL oracle. -/
def halW : Hal :=
  { brightness := 50, volume := 50, battery := ⟨77, "Charging"⟩,
    sysinfo := ⟨"aios", "6.1.0", 2048, 1024, 7200⟩,
    timeStr := "12:00:00", dateStr := "Monday, January 01, 2026",
    brightness_set_ret := fun _ => 0, volume_set_ret := fun _ => 0,
    mute_set_ret := fun _ => 0, wifi_set_ret := fun _ => 0,
    bluetooth_set_ret := fun _ => 0, suspend_ret := 0,
    app_launch_ret := fun _ => 0 }

/-- The no-credentials configuration (`load_config` defaults): local
fallback only. -/
def cfgLocal : AgentConfig := ⟨.localOnly, "gpt-4", "", "", true⟩

/-! ## Small lookup lemmas -/

theorem getObjectItem_head (k : String) (v : JVal) (rest : List (String × JVal)) :
    getObjectItem (.jobj ((k, v) :: rest)) k = some v := by
  show (List.find? (fun kv => lowerStr kv.1 == lowerStr k) ((k, v) :: rest)).map
    (fun kv => kv.2) = some v
  rw [List.find?_cons_of_pos _ (by simp)]
  rfl

theorem getObjectItem_snd_level (a l : JVal) :
    getObjectItem (.jobj [("action", a), ("level", l)]) "level" = some l := rfl

theorem getObjectItem_snd_muted (a l : JVal) :
    getObjectItem (.jobj [("action", a), ("muted", l)]) "muted" = some l := rfl

theorem getObjectItem_snd_enabled (a l : JVal) :
    getObjectItem (.jobj [("action", a), ("enabled", l)]) "enabled" = some l := rfl

theorem getObjectItem_snd_app (a l : JVal) :
    getObjectItem (.jobj [("action", a), ("app", l)]) "app" = some l := rfl

/-! ## C7: unknown intent names -/

/-- C7: executing an intent whose name is outside the dispatcher's fixed
vocabulary returns `success = false` with message `"Unknown action"` and
performs zero HAL calls (the switch falls through, leaving the
initialised result untouched). -/
theorem dispatcher_unknown_action (hal : Hal) (name : String)
    (rest : List (String × JVal))
    (h : name ∉ (["brightness", "volume", "mute", "wifi", "bluetooth",
      "shutdown", "reboot", "suspend", "launch", "info"] : List String)) :
    (execAction hal (some (.jobj (("action", .jstr name) :: rest)))).result.success = false
    ∧ (execAction hal (some (.jobj (("action", .jstr name) :: rest)))).result.message =
        "Unknown action"
    ∧ (execAction hal (some (.jobj (("action", .jstr name) :: rest)))).calls = [] := by
  simp only [List.mem_cons, List.not_mem_nil, or_false, not_or] at h
  obtain ⟨h1, h2, h3, h4, h5, h6, h7, h8, h9, h10⟩ := h
  simp [execAction, getObjectItem_head, valuestring, unknownResult,
    h1, h2, h3, h4, h5, h6, h7, h8, h9, h10]

theorem dispatcher_unknown_action_witness :
    "unknown_xyz" ∉ (["brightness", "volume", "mute", "wifi", "bluetooth",
      "shutdown", "reboot", "suspend", "launch", "info"] : List String)
    ∧ ((execAction halW (some (.jobj [("action", .jstr "unknown_xyz")]))).result.success = false
      ∧ (execAction halW (some (.jobj [("action", .jstr "unknown_xyz")]))).result.message =
          "Unknown action"
      ∧ (execAction halW (some (.jobj [("action", .jstr "unknown_xyz")]))).calls = []) :=
  ⟨by decide, dispatcher_unknown_action halW "unknown_xyz" [] (by decide)⟩

/-! ## C9: recognized intent with a missing required parameter -/

/-- C9: for a recognized intent name with a missing required parameter —
`brightness`/`volume` without `level`, `launch` without a string `app` —
the dispatcher short-circuits to a failure result (success = false)
without performing any HAL call. -/
theorem dispatcher_missing_param (hal : Hal) (j : JVal) :
    (((getObjectItem j "action").bind valuestring = some "brightness" ∨
      (getObjectItem j "action").bind valuestring = some "volume") →
      getObjectItem j "level" = none →
      (execAction hal (some j)).result.success = false ∧ (execAction hal (some j)).calls = [])
    ∧ ((getObjectItem j "action").bind valuestring = some "launch" →
      (getObjectItem j "app").bind valuestring = none →
      (execAction hal (some j)).result.success = false ∧ (execAction hal (some j)).calls = []) := by
  constructor
  · rintro (ha | ha) hl
    · simp [execAction, ha, hl, unknownResult]
    · simp [execAction, ha, hl, unknownResult]
  · intro ha happ
    simp [execAction, ha, happ, unknownResult]

theorem dispatcher_missing_param_witness :
    ((getObjectItem (.jobj [("action", .jstr "brightness")]) "action").bind valuestring =
        some "brightness" ∨
      (getObjectItem (.jobj [("action", .jstr "brightness")]) "action").bind valuestring =
        some "volume")
    ∧ getObjectItem (.jobj [("action", .jstr "brightness")]) "level" = none
    ∧ ((execAction halW (some (.jobj [("action", .jstr "brightness")]))).result.success = false
      ∧ (execAction halW (some (.jobj [("action", .jstr "brightness")]))).calls = []) :=
  ⟨Or.inl (by decide), by decide,
    (dispatcher_missing_param halW (.jobj [("action", .jstr "brightness")])).1
      (Or.inl (by decide)) (by decide)⟩

/-! ## C8: oversized or unparseable frames close the connection -/

/-- C8: a frame whose length prefix exceeds `MAX_MESSAGE_SIZE` (64 KiB),
or whose payload does not parse as JSON, makes the connection handler
close the connection without sending any response bytes and without
touching the store or the HAL. -/
theorem handler_protocol_violation_closes (cfg : AgentConfig) (hal : Hal)
    (remote : Option String) (history : List ChatMsg) (declaredLen : Nat) (payload : String) :
    (MAX_MESSAGE_SIZE < declaredLen →
      client_handler_frame cfg hal remote history declaredLen payload = ⟨.closed, history, []⟩)
    ∧ (cJSON_Parse payload = none →
      client_handler_frame cfg hal remote history declaredLen payload = ⟨.closed, history, []⟩) := by
  constructor
  · intro h
    simp [client_handler_frame, h]
  · intro h
    unfold client_handler_frame
    split
    · rfl
    · rw [h]

theorem handler_protocol_violation_closes_witness :
    (MAX_MESSAGE_SIZE < 65537
      ∧ client_handler_frame cfgLocal halW none [] 65537 "x" = ⟨.closed, [], []⟩)
    ∧ (cJSON_Parse "notjson" = none
      ∧ client_handler_frame cfgLocal halW none [] 7 "notjson" = ⟨.closed, [], []⟩) :=
  ⟨⟨by decide,
      (handler_protocol_violation_closes cfgLocal halW none [] 65537 "x").1 (by decide)⟩,
    ⟨by decide,
      (handler_protocol_violation_closes cfgLocal halW none [] 7 "notjson").2 (by decide)⟩⟩

/-! ## C3: HAL failure and the success flag -/

/-- C3 (amended): for the `brightness`, `volume` and `launch` intents a
failing HAL call yields `success = false`; but for `mute`, `wifi`,
`bluetooth` and `suspend` the dispatcher discards the HAL return code and
reports `success = true` unconditionally, even when the call fails. -/
theorem dispatcher_hal_failure_success_flag (hal : Hal) (v : Int) (m e b : Bool)
    (app : String) :
    (hal.brightness_set_ret v ≠ 0 →
      (execAction hal (some (.jobj [("action", .jstr "brightness"), ("level", .jnum v)]))).result.success = false)
    ∧ (hal.volume_set_ret v ≠ 0 →
      (execAction hal (some (.jobj [("action", .jstr "volume"), ("level", .jnum v)]))).result.success = false)
    ∧ (hal.app_launch_ret app ≠ 0 →
      (execAction hal (some (.jobj [("action", .jstr "launch"), ("app", .jstr app)]))).result.success = false)
    ∧ (execAction hal (some (.jobj [("action", .jstr "mute"), ("muted", .jbool m)]))).result.success = true
    ∧ (execAction hal (some (.jobj [("action", .jstr "wifi"), ("enabled", .jbool e)]))).result.success = true
    ∧ (execAction hal (some (.jobj [("action", .jstr "bluetooth"), ("enabled", .jbool b)]))).result.success = true
    ∧ (execAction hal (some (.jobj [("action", .jstr "suspend")]))).result.success = true := by
  refine ⟨fun h => ?_, fun h => ?_, fun h => ?_, ?_, ?_, ?_, ?_⟩
  · simp [execAction, getObjectItem_head, getObjectItem_snd_level, valuestring, valueint,
      beq_eq_false_iff_ne, h]
  · simp [execAction, getObjectItem_head, getObjectItem_snd_level, valuestring, valueint,
      beq_eq_false_iff_ne, h]
  · simp [execAction, getObjectItem_head, getObjectItem_snd_app, valuestring,
      beq_eq_false_iff_ne, h]
  · rfl
  · rfl
  · rfl
  · rfl

theorem dispatcher_hal_failure_success_flag_witness :
    ({ halW with brightness_set_ret := fun _ => -1 }.brightness_set_ret 30 ≠ 0)
    ∧ (execAction { halW with brightness_set_ret := fun _ => -1 }
        (some (.jobj [("action", .jstr "brightness"), ("level", .jnum 30)]))).result.success = false :=
  ⟨by decide,
    (dispatcher_hal_failure_success_flag { halW with brightness_set_ret := fun _ => -1 }
      30 true true true "term").1 (by decide)⟩

/-- C3 counterexample: a concrete HAL oracle whose `hal_mute_set` fails
(returns `-1`), yet the dispatcher's result for the `mute` intent has
`success = true` — refuting the claim that every HAL failure is surfaced
as `success = false`. -/
theorem dispatcher_ignores_mute_failure_cex :
    ({ halW with mute_set_ret := fun _ => -1 }.mute_set_ret true ≠ 0)
    ∧ (execAction { halW with mute_set_ret := fun _ => -1 }
        (some (.jobj [("action", .jstr "mute"), ("muted", .jbool true)]))).calls =
        [.muteSet true]
    ∧ (execAction { halW with mute_set_ret := fun _ => -1 }
        (some (.jobj [("action", .jstr "mute"), ("muted", .jbool true)]))).result.success = true := by
  refine ⟨by decide, by decide, by decide⟩

/-! ## C1 and C2: conversation store capacity, eviction and appends -/

theorem agent_chat_history_eq (cfg : AgentConfig) (hal : Hal) (remote : Option String)
    (h : List ChatMsg) (input : String) :
    (agent_chat cfg hal remote h input).history =
      (let h1 := if MAX_HISTORY_SIZE ≤ h.length then h.tail else h
       let h2 := h1 ++ [⟨"user", input⟩]
       if h2.length < MAX_HISTORY_SIZE then
         h2 ++ [⟨"assistant", (agent_chat cfg hal remote h input).response⟩]
       else h2) := rfl

/-- C1 (amended): the store length never exceeds `MAX_HISTORY_SIZE` (20) —
both as a preserved invariant of one `chat` and over every sequence of
`chat` commands from the empty store.  Eviction, however, only happens
for the user turn: on a full store the oldest turn is evicted
(the store never holds system turns, so it is the oldest non-system
turn) and only the user turn is appended — the assistant turn that would
exceed the capacity is silently dropped rather than evicting another
turn. -/
theorem history_capacity_and_eviction (cfg : AgentConfig) (hal : Hal)
    (remote : Option String) :
    (∀ (h : List ChatMsg) (input : String), h.length ≤ MAX_HISTORY_SIZE →
      (agent_chat cfg hal remote h input).history.length ≤ MAX_HISTORY_SIZE)
    ∧ (∀ inputs : List String, (runChats cfg hal remote inputs).length ≤ MAX_HISTORY_SIZE)
    ∧ (∀ (h : List ChatMsg) (input : String), h.length = MAX_HISTORY_SIZE →
      (agent_chat cfg hal remote h input).history = h.tail ++ [⟨"user", input⟩])
    ∧ (∀ inputs : List String, ∀ m ∈ runChats cfg hal remote inputs,
      m.role = "user" ∨ m.role = "assistant") := by
  have hstep : ∀ (h : List ChatMsg) (input : String), h.length ≤ MAX_HISTORY_SIZE →
      (agent_chat cfg hal remote h input).history.length ≤ MAX_HISTORY_SIZE := by
    intro h input hle
    rw [agent_chat_history_eq]
    simp only [MAX_HISTORY_SIZE] at hle ⊢
    split_ifs with hA hB <;>
      simp_all only [List.length_append, List.length_tail, List.length_cons,
        List.length_nil, not_le, not_lt] <;>
      omega
  refine ⟨hstep, ?_, ?_, ?_⟩
  · intro inputs
    have : ∀ (h : List ChatMsg), h.length ≤ MAX_HISTORY_SIZE →
        (List.foldl (fun a i => (agent_chat cfg hal remote a i).history) h inputs).length ≤
          MAX_HISTORY_SIZE := by
      induction inputs with
      | nil => intro h hh; simpa using hh
      | cons x xs ih =>
        intro h hh
        exact ih _ (hstep h x hh)
    exact this [] (by simp [MAX_HISTORY_SIZE])
  · intro h input hfull
    rw [agent_chat_history_eq]
    have h1 : MAX_HISTORY_SIZE ≤ h.length := le_of_eq hfull.symm
    simp only [if_pos h1]
    have h2 : ¬ (h.tail ++ [(⟨"user", input⟩ : ChatMsg)]).length < MAX_HISTORY_SIZE := by
      simp only [List.length_append, List.length_tail, List.length_cons, List.length_nil, hfull]
      simp [MAX_HISTORY_SIZE]
    simp only [if_neg h2]
  · intro inputs
    have step : ∀ (h : List ChatMsg) (input : String) (m : ChatMsg),
        m ∈ (agent_chat cfg hal remote h input).history →
        m ∈ h ∨ m.role = "user" ∨ m.role = "assistant" := by
      intro h input m hm
      rw [agent_chat_history_eq] at hm
      split at hm <;> simp only [] at hm <;> split at hm <;>
        simp only [List.mem_append, List.mem_singleton] at hm <;>
        first
          | exact hm.elim (fun h2 => h2.elim (fun h3 => Or.inl (List.mem_of_mem_tail h3))
              (fun h3 => Or.inr (Or.inl (by rw [h3])))) (fun h3 => Or.inr (Or.inr (by rw [h3])))
          | exact hm.elim (fun h2 => h2.elim (fun h3 => Or.inl h3)
              (fun h3 => Or.inr (Or.inl (by rw [h3])))) (fun h3 => Or.inr (Or.inr (by rw [h3])))
          | exact hm.elim (fun h3 => Or.inl (List.mem_of_mem_tail h3))
              (fun h3 => Or.inr (Or.inl (by rw [h3])))
          | exact hm.elim (fun h3 => Or.inl h3) (fun h3 => Or.inr (Or.inl (by rw [h3])))
    have main : ∀ (h : List ChatMsg),
        (∀ m ∈ h, m.role = "user" ∨ m.role = "assistant") →
        ∀ m ∈ List.foldl (fun a i => (agent_chat cfg hal remote a i).history) h inputs,
          m.role = "user" ∨ m.role = "assistant" := by
      induction inputs with
      | nil => intro h hh; simpa using hh
      | cons x xs ih =>
        intro h hh
        refine ih _ ?_
        intro m hm
        rcases step h x m hm with hmem | hrole
        · exact hh m hmem
        · exact hrole
    exact main [] (by simp)

/-- A reachable full store: ten chats from the empty store leave exactly
20 turns. -/
def preFull : List ChatMsg :=
  runChats cfgLocal halW none ["q0", "q1", "q2", "q3", "q4", "q5", "q6", "q7", "q8", "q9"]

theorem history_capacity_and_eviction_witness :
    ((runChats cfgLocal halW none ["a", "b", "c"]).length ≤ MAX_HISTORY_SIZE)
    ∧ (preFull.length = MAX_HISTORY_SIZE
      ∧ (agent_chat cfgLocal halW none preFull "q10").history =
          preFull.tail ++ [⟨"user", "q10"⟩]) :=
  ⟨(history_capacity_and_eviction cfgLocal halW none).2.1 ["a", "b", "c"],
    ⟨by decide,
      (history_capacity_and_eviction cfgLocal halW none).2.2.1 preFull "q10" (by decide)⟩⟩

/-- C1 counterexample: at a full store (reached by ten chats), the
eleventh chat's result differs from the spec's FIFO store — appending
the user and assistant turns each under oldest-non-system eviction —
because the code drops the assistant turn instead of evicting for it. -/
theorem history_fifo_eviction_cex :
    preFull.length = MAX_HISTORY_SIZE
    ∧ (agent_chat cfgLocal halW none preFull "q10").history ≠
        specFifoAppend MAX_HISTORY_SIZE
          (specFifoAppend MAX_HISTORY_SIZE preFull ⟨"user", "q10"⟩)
          ⟨"assistant", (agent_chat cfgLocal halW none preFull "q10").response⟩ := by
  refine ⟨by decide, by decide⟩

/-- C2 (amended): a chat appends the user turn followed by the assistant
turn (holding input and reply) whenever the store holds at most 18
turns; at 19 or 20 turns only the user turn is stored (with the oldest
turn evicted at 20) and the assistant turn is dropped. -/
theorem agent_chat_appends_two_turns (cfg : AgentConfig) (hal : Hal)
    (remote : Option String) (h : List ChatMsg) (input : String)
    (hle : h.length ≤ 18) :
    (agent_chat cfg hal remote h input).history =
      h ++ [⟨"user", input⟩,
        ⟨"assistant", (agent_chat cfg hal remote h input).response⟩] := by
  rw [agent_chat_history_eq]
  have h1 : ¬ MAX_HISTORY_SIZE ≤ h.length := by simp [MAX_HISTORY_SIZE]; omega
  simp only [if_neg h1]
  have h2 : (h ++ [(⟨"user", input⟩ : ChatMsg)]).length < MAX_HISTORY_SIZE := by
    simp only [List.length_append, List.length_cons, List.length_nil, MAX_HISTORY_SIZE]
    omega
  simp only [if_pos h2, List.append_assoc, List.cons_append, List.nil_append]

theorem agent_chat_appends_two_turns_witness :
    (([] : List ChatMsg).length ≤ 18)
    ∧ (agent_chat cfgLocal halW none [] "hello").history =
        [] ++ [⟨"user", "hello"⟩,
          ⟨"assistant", (agent_chat cfgLocal halW none [] "hello").response⟩] :=
  ⟨by decide, agent_chat_appends_two_turns cfgLocal halW none [] "hello" (by decide)⟩

/-- C2 counterexample: on the full (reachable) store the eleventh chat
stores only the user turn — the new history ends in the user turn, and
no amount of front eviction makes it the old store plus the
user-then-assistant pair, refuting "appends exactly two turns ...
regardless of the current length". -/
theorem agent_chat_appends_two_turns_cex :
    preFull.length = MAX_HISTORY_SIZE
    ∧ (agent_chat cfgLocal halW none preFull "q10").history.getLast? =
        some ⟨"user", "q10"⟩
    ∧ ¬ ∃ k < 21, (agent_chat cfgLocal halW none preFull "q10").history =
        preFull.drop k ++ [⟨"user", "q10"⟩,
          ⟨"assistant", (agent_chat cfgLocal halW none preFull "q10").response⟩] := by
  refine ⟨by decide, by decide, by decide⟩

/-! ## C5 and C6: response envelopes -/

theorem getObjectItem_nil (k : String) : getObjectItem (.jobj []) k = none := rfl

theorem getObjectItem_result_status (v : JVal) :
    getObjectItem (.jobj [("result", v)]) "status" = none := rfl

/-- C5 (amended): whenever the connection handler answers a frame, the
response object's `status` field — if present — is `"ok"` (never
`"error"`); but not every answered frame carries one: the `action`
command's response holds only `result`, and unknown commands, `chat`
without a text field or `action` without an action field are answered
with an empty JSON object. -/
theorem handler_response_status_field (cfg : AgentConfig) (hal : Hal)
    (remote : Option String) (history : List ChatMsg) (declaredLen : Nat)
    (payload : String) (r : JVal)
    (h : (client_handler_frame cfg hal remote history declaredLen payload).outcome =
      .replied r) :
    getObjectItem r "status" = some (.jstr "ok") ∨ getObjectItem r "status" = none := by
  unfold client_handler_frame at h
  repeat' split at h
  all_goals try exact FrameResult.noConfusion h
  all_goals simp_all only [FrameResult.replied.injEq]
  all_goals subst h
  all_goals repeat' split
  all_goals simp [getObjectItem_head, getObjectItem_nil, getObjectItem_result_status,
    List.cons_append, List.nil_append]

def clearPayload : String := "\x7b\"cmd\":\"clear\"\x7d"

def statusPayload : String := "\x7b\"cmd\":\"status\"\x7d"

theorem handler_response_status_field_witness :
    ((client_handler_frame cfgLocal halW none [] clearPayload.length clearPayload).outcome =
      .replied (.jobj [("status", .jstr "ok")]))
    ∧ (getObjectItem (.jobj [("status", .jstr "ok")]) "status" = some (.jstr "ok")
      ∨ getObjectItem (.jobj [("status", .jstr "ok")]) "status" = none) :=
  ⟨by decide,
    handler_response_status_field cfgLocal halW none [] clearPayload.length clearPayload
      (.jobj [("status", .jstr "ok")]) (by decide)⟩

def actionMutePayload : String :=
  "\x7b\"cmd\":\"action\",\"action\":\x7b\"action\":\"mute\"\x7d\x7d"

/-- C5 counterexample: the `action` command is answered (not closed), yet
its response object has no `status` field at all — refuting "the
response payload ... is a JSON object containing a `status` field" for
every answered frame. -/
theorem action_response_missing_status_cex :
    (client_handler_frame cfgLocal halW none [] actionMutePayload.length
        actionMutePayload).outcome =
      .replied (.jobj [("result", .jobj [("success", .jbool true),
        ("message", .jstr "Muted")])])
    ∧ getObjectItem (.jobj [("result", .jobj [("success", .jbool true),
        ("message", .jstr "Muted")])]) "status" = none :=
  ⟨by decide, by decide⟩

/-- The response object the `status` command builds. -/
def statusResp (cfg : AgentConfig) (hal : Hal) : JVal :=
  .jobj [("status", .jstr "ok"), ("running", .jbool true),
    ("ai_configured", .jbool (cfg.openai_api_key != "" || cfg.anthropic_api_key != "")),
    ("system", .jobj [("hostname", .jstr hal.sysinfo.hostname),
      ("kernel", .jstr hal.sysinfo.kernel),
      ("memory_mb", .jnum (Int.tdiv hal.sysinfo.memory_total_kb 1024)),
      ("memory_free_mb", .jnum (Int.tdiv hal.sysinfo.memory_free_kb 1024))])]

/-- C6 (amended): `clear` empties the ConversationStore (under any
starting store), and the store is still empty when the immediately
following `status` command is answered; the status response itself is
the fixed object above — it carries no store-length information. -/
theorem clear_then_status_empty_store (cfg : AgentConfig) (hal : Hal)
    (remote : Option String) (history : List ChatMsg) :
    runFrames cfg hal remote history
        [(clearPayload.length, clearPayload), (statusPayload.length, statusPayload)] =
      ([.replied (.jobj [("status", .jstr "ok")]), .replied (statusResp cfg hal)], []) := rfl

/-- All numbers occurring anywhere in a JSON tree (to the given nesting
depth). -/
def numsInF : Nat → JVal → List Int
  | 0, _ => []
  | _ + 1, .jnum n => [n]
  | f + 1, .jarr xs => (xs.map (numsInF f)).flatten
  | f + 1, .jobj fs => (fs.map (fun kv => numsInF f kv.2)).flatten
  | _ + 1, _ => []

/-- C6 counterexample: for a concrete HAL snapshot (2 MB total, 1 MB free)
the status response after a `clear` contains the numbers 2 and 1 and no
occurrence of 0 anywhere — so it does not report the (indeed empty)
ConversationStore's length; the response simply has no such field. -/
theorem status_response_reports_no_length_cex :
    runFrames cfgLocal halW none [⟨"user", "hi"⟩]
        [(clearPayload.length, clearPayload), (statusPayload.length, statusPayload)] =
      ([.replied (.jobj [("status", .jstr "ok")]), .replied (statusResp cfgLocal halW)], [])
    ∧ numsInF 3 (statusResp cfgLocal halW) = [2, 1]
    ∧ (0 : Int) ∉ numsInF 3 (statusResp cfgLocal halW) :=
  ⟨by decide, by decide, by decide⟩

/-! ## C4: relative adjustments in the fallback interpreter -/

/-- The interpreter's normalised input (`lower` buffer). -/
def fbLower (input : String) : String := lowerStr (strTake input 255)

/-- C4 (amended): a relative adjustment reads the current HAL value and
applies the fixed step (±20 brightness, ±10 volume), but clamps only at
the upper bound 100: a nonnegative stepped level is clamped to at most
100 and set; a negative stepped level is not clamped to 0 — no set call
happens and the interpreter answers with the generic capability list. -/
theorem fallback_relative_adjust (hal : Hal) (input : String) :
    (containsSub (fbLower input) "brightness" = true →
      (containsSub (fbLower input) "up" || containsSub (fbLower input) "increase") = true →
        process_local_fallback hal input =
          finishLevel "brightness" .brightnessSet [.brightnessGet] (hal.brightness + 20))
    ∧ (containsSub (fbLower input) "brightness" = true →
      (containsSub (fbLower input) "up" || containsSub (fbLower input) "increase") = false →
      (containsSub (fbLower input) "down" || containsSub (fbLower input) "decrease") = true →
        process_local_fallback hal input =
          finishLevel "brightness" .brightnessSet [.brightnessGet] (hal.brightness - 20))
    ∧ (containsSub (fbLower input) "brightness" = false →
      containsSub (fbLower input) "volume" = true →
      containsSub (fbLower input) "up" = true →
        process_local_fallback hal input =
          finishLevel "volume" .volumeSet [.volumeGet] (hal.volume + 10))
    ∧ (containsSub (fbLower input) "brightness" = false →
      containsSub (fbLower input) "volume" = true →
      containsSub (fbLower input) "up" = false →
      containsSub (fbLower input) "down" = true →
        process_local_fallback hal input =
          finishLevel "volume" .volumeSet [.volumeGet] (hal.volume - 10))
    ∧ (∀ (name : String) (mk : Int → HalCall) (gets : List HalCall) (v : Int),
        (0 ≤ v → finishLevel name mk gets v =
          ⟨levelIntent name (clamp100 v), gets ++ [mk (clamp100 v)]⟩)
        ∧ (v < 0 → finishLevel name mk gets v = ⟨genericHelp, gets⟩)
        ∧ clamp100 v ≤ 100
        ∧ (0 ≤ v → 0 ≤ clamp100 v)
        ∧ (v ≤ 100 → clamp100 v = v)) := by
  refine ⟨?_, ?_, ?_, ?_, ?_⟩
  · intro hb hup
    unfold process_local_fallback
    simp only [fbLower] at hb hup
    simp only [hb, hup, if_true]
  · intro hb hup hdown
    unfold process_local_fallback
    simp only [fbLower] at hb hup hdown
    simp only [hb, hup, hdown, if_true, Bool.false_eq_true, if_false]
  · intro hb hv hup
    unfold process_local_fallback
    simp only [fbLower] at hb hv hup
    simp only [hb, hv, hup, if_true, Bool.false_eq_true, if_false]
  · intro hb hv hup hdown
    unfold process_local_fallback
    simp only [fbLower] at hb hv hup hdown
    simp only [hb, hv, hup, hdown, if_true, Bool.false_eq_true, if_false]
  · intro name mk gets v
    refine ⟨fun h0 => ?_, fun hneg => ?_, ?_, fun h0 => ?_, fun h100 => ?_⟩
    · unfold finishLevel
      rw [if_pos h0]
    · unfold finishLevel
      rw [if_neg (by omega)]
    · unfold clamp100
      split <;> omega
    · unfold clamp100
      split <;> omega
    · unfold clamp100
      rw [if_neg (by omega)]

theorem fallback_relative_adjust_witness :
    containsSub (fbLower "brightness up") "brightness" = true
    ∧ (containsSub (fbLower "brightness up") "up"
        || containsSub (fbLower "brightness up") "increase") = true
    ∧ process_local_fallback halW "brightness up" =
        finishLevel "brightness" .brightnessSet [.brightnessGet] (halW.brightness + 20) :=
  ⟨by decide, by decide,
    (fallback_relative_adjust halW "brightness up").1 (by decide) (by decide)⟩

/-- C4 counterexample: with the current brightness at 0, "brightness
down" computes level −20; the claim requires clamping to [0,100] (so a
set to 0), but the interpreter performs no set call at all — only the
get — and answers with the generic capability reply. -/
theorem fallback_negative_level_not_clamped_cex :
    (process_local_fallback { halW with brightness := 0 } "brightness down").calls =
      [HalCall.brightnessGet]
    ∧ HalCall.brightnessSet 0 ∉
        (process_local_fallback { halW with brightness := 0 } "brightness down").calls
    ∧ (process_local_fallback { halW with brightness := 0 } "brightness down").response =
        genericHelp :=
  ⟨by decide, by decide, by decide⟩

/-! ## C10: the fallback path executes device-setting intents twice -/

theorem jIsTrue_some_bool (b : Bool) : jIsTrue (some (.jbool b)) = b := by
  cases b <;> rfl

theorem exec_brightness (hal : Hal) (v : Int) :
    execAction hal (some (.jobj [("action", .jstr "brightness"), ("level", .jnum v)])) =
      ⟨0, ⟨hal.brightness_set_ret v == 0, "Brightness set to " ++ toString v ++ "%", none⟩,
        [.brightnessSet v]⟩ := rfl

theorem exec_volume (hal : Hal) (v : Int) :
    execAction hal (some (.jobj [("action", .jstr "volume"), ("level", .jnum v)])) =
      ⟨0, ⟨hal.volume_set_ret v == 0, "Volume set to " ++ toString v ++ "%", none⟩,
        [.volumeSet v]⟩ := rfl

theorem exec_mute_true (hal : Hal) :
    execAction hal (some (.jobj [("action", .jstr "mute"), ("muted", .jbool true)])) =
      ⟨0, ⟨true, "Muted", none⟩, [.muteSet true]⟩ := rfl

theorem exec_wifi (hal : Hal) (e : Bool) :
    execAction hal (some (.jobj [("action", .jstr "wifi"), ("enabled", .jbool e)])) =
      ⟨0, ⟨true, if e then "WiFi enabled" else "WiFi disabled", none⟩, [.wifiSet e]⟩ := by
  cases e <;> rfl

set_option maxHeartbeats 1000000 in
theorem intent_roundtrip_nat : ∀ n : Nat, n < 101 →
    cJSON_Parse (levelIntent "brightness" (Int.ofNat n)) =
        some (.jobj [("action", .jstr "brightness"), ("level", .jnum (Int.ofNat n))])
    ∧ cJSON_Parse (levelIntent "volume" (Int.ofNat n)) =
        some (.jobj [("action", .jstr "volume"), ("level", .jnum (Int.ofNat n))])
    ∧ extractActionJson (levelIntent "brightness" (Int.ofNat n)) =
        some (levelIntent "brightness" (Int.ofNat n))
    ∧ extractActionJson (levelIntent "volume" (Int.ofNat n)) =
        some (levelIntent "volume" (Int.ofNat n)) := by decide

/-- For any level the fallback can emit (clamped into `[0, 100]`), the
intent reply round-trips: the whole reply is extracted as the action
fragment and parses back to the intent object. -/
theorem intent_roundtrip (v : Int) (h0 : 0 ≤ v) (h100 : v ≤ 100) :
    cJSON_Parse (levelIntent "brightness" v) =
        some (.jobj [("action", .jstr "brightness"), ("level", .jnum v)])
    ∧ cJSON_Parse (levelIntent "volume" v) =
        some (.jobj [("action", .jstr "volume"), ("level", .jnum v)])
    ∧ extractActionJson (levelIntent "brightness" v) = some (levelIntent "brightness" v)
    ∧ extractActionJson (levelIntent "volume" v) = some (levelIntent "volume" v) := by
  obtain ⟨n, rfl⟩ := Int.eq_ofNat_of_zero_le h0
  exact intent_roundtrip_nat n (by omega)

/-- On the fallback path (provider not OpenAI, no key, or the remote call
failed), `agent_chat`'s HAL trace is the fallback's trace followed by
whatever the re-execution of the extracted reply fragment performs. -/
theorem agent_chat_fallback_path (cfg : AgentConfig) (hal : Hal) (remote : Option String)
    (history : List ChatMsg) (input : String)
    (hpath : cfg.provider ≠ Provider.openai ∨ cfg.openai_api_key = "" ∨ remote = none) :
    (agent_chat cfg hal remote history input).calls =
      (process_local_fallback hal input).calls ++
        (match extractActionJson (process_local_fallback hal input).response with
         | some aj => (agent_execute_action hal aj).calls
         | none => []) := by
  unfold agent_chat
  by_cases hc : cfg.provider = Provider.openai ∧ cfg.openai_api_key ≠ ""
  · have hr : remote = none := by
      rcases hpath with hp | hp | hp
      · exact absurd hc.1 hp
      · exact absurd hp hc.2
      · exact hp
    subst hr
    simp only [if_pos hc]
    cases hx : extractActionJson (process_local_fallback hal input).response <;> simp [hx]
  · simp only [if_neg hc]
    cases hx : extractActionJson (process_local_fallback hal input).response <;> simp [hx]

theorem brightness_branch_cases (g : List HalCall)
    (hg : g = [] ∨ g = [HalCall.brightnessGet]) (lv : Int) :
    (∃ v g2, 0 ≤ v ∧ v ≤ 100 ∧ (g2 = [] ∨ g2 = [HalCall.brightnessGet]) ∧
      finishLevel "brightness" .brightnessSet g lv =
        ⟨levelIntent "brightness" v, g2 ++ [.brightnessSet v]⟩)
    ∨ (∀ c ∈ (finishLevel "brightness" .brightnessSet g lv).calls, isSetCall c = false) := by
  unfold finishLevel
  split_ifs with h0
  · exact Or.inl ⟨clamp100 lv, g, by unfold clamp100; split <;> omega,
      by unfold clamp100; split <;> omega, hg, rfl⟩
  · right
    intro c hc
    simp only at hc
    rcases hg with rfl | rfl
    · simp at hc
    · simp at hc
      subst hc
      rfl

theorem volume_branch_cases (g : List HalCall)
    (hg : g = [] ∨ g = [HalCall.volumeGet]) (lv : Int) :
    (∃ v g2, 0 ≤ v ∧ v ≤ 100 ∧ (g2 = [] ∨ g2 = [HalCall.volumeGet]) ∧
      finishLevel "volume" .volumeSet g lv =
        ⟨levelIntent "volume" v, g2 ++ [.volumeSet v]⟩)
    ∨ (∀ c ∈ (finishLevel "volume" .volumeSet g lv).calls, isSetCall c = false) := by
  unfold finishLevel
  split_ifs with h0
  · exact Or.inl ⟨clamp100 lv, g, by unfold clamp100; split <;> omega,
      by unfold clamp100; split <;> omega, hg, rfl⟩
  · right
    intro c hc
    simp only at hc
    rcases hg with rfl | rfl
    · simp at hc
    · simp at hc
      subst hc
      rfl

/-- Exhaustive shape analysis of one fallback run: it either emits a
brightness or volume intent with a clamped level and the matching single
set call, the fixed mute or wifi intent with its single set call, or its
trace contains no set call at all. -/
theorem fallback_shape (hal : Hal) (input : String) :
    (∃ v g, 0 ≤ v ∧ v ≤ 100 ∧ (g = [] ∨ g = [HalCall.brightnessGet]) ∧
      process_local_fallback hal input =
        ⟨levelIntent "brightness" v, g ++ [.brightnessSet v]⟩)
    ∨ (∃ v g, 0 ≤ v ∧ v ≤ 100 ∧ (g = [] ∨ g = [HalCall.volumeGet]) ∧
      process_local_fallback hal input =
        ⟨levelIntent "volume" v, g ++ [.volumeSet v]⟩)
    ∨ process_local_fallback hal input = ⟨muteIntentStr, [.muteSet true]⟩
    ∨ (∃ e, process_local_fallback hal input = ⟨wifiIntentStr e, [.wifiSet e]⟩)
    ∨ (∀ c ∈ (process_local_fallback hal input).calls, isSetCall c = false) := by
  unfold process_local_fallback
  by_cases hb : containsSub (lowerStr (strTake input 255)) "brightness" = true
  · simp only [hb, if_true]
    by_cases hup : (containsSub (lowerStr (strTake input 255)) "up"
        || containsSub (lowerStr (strTake input 255)) "increase") = true
    · simp only [hup, if_true]
      rcases brightness_branch_cases [HalCall.brightnessGet] (Or.inr rfl)
          (hal.brightness + 20) with h | h
      · exact Or.inl h
      · exact Or.inr (Or.inr (Or.inr (Or.inr h)))
    · simp only [Bool.not_eq_true] at hup
      simp only [hup, Bool.false_eq_true, if_false]
      by_cases hdown : (containsSub (lowerStr (strTake input 255)) "down"
          || containsSub (lowerStr (strTake input 255)) "decrease") = true
      · simp only [hdown, if_true]
        rcases brightness_branch_cases [HalCall.brightnessGet] (Or.inr rfl)
            (hal.brightness - 20) with h | h
        · exact Or.inl h
        · exact Or.inr (Or.inr (Or.inr (Or.inr h)))
      · simp only [Bool.not_eq_true] at hdown
        simp only [hdown, Bool.false_eq_true, if_false]
        cases hscan : scanLevel (lowerStr (strTake input 255)) with
        | none => exact Or.inr (Or.inr (Or.inr (Or.inr (by simp))))
        | some v =>
          rcases brightness_branch_cases [] (Or.inl rfl) v with h | h
          · exact Or.inl h
          · exact Or.inr (Or.inr (Or.inr (Or.inr h)))
  · simp only [Bool.not_eq_true] at hb
    simp only [hb, Bool.false_eq_true, if_false]
    by_cases hv : containsSub (lowerStr (strTake input 255)) "volume" = true
    · simp only [hv, if_true]
      by_cases hvup : containsSub (lowerStr (strTake input 255)) "up" = true
      · simp only [hvup, if_true]
        rcases volume_branch_cases [HalCall.volumeGet] (Or.inr rfl)
            (hal.volume + 10) with h | h
        · exact Or.inr (Or.inl h)
        · exact Or.inr (Or.inr (Or.inr (Or.inr h)))
      · simp only [Bool.not_eq_true] at hvup
        simp only [hvup, Bool.false_eq_true, if_false]
        by_cases hvdown : containsSub (lowerStr (strTake input 255)) "down" = true
        · simp only [hvdown, if_true]
          rcases volume_branch_cases [HalCall.volumeGet] (Or.inr rfl)
              (hal.volume - 10) with h | h
          · exact Or.inr (Or.inl h)
          · exact Or.inr (Or.inr (Or.inr (Or.inr h)))
        · simp only [Bool.not_eq_true] at hvdown
          simp only [hvdown, Bool.false_eq_true, if_false]
          by_cases hvm : containsSub (lowerStr (strTake input 255)) "mute" = true
          · simp only [hvm, if_true]
            exact Or.inr (Or.inr (Or.inl (by trivial)))
          · simp only [Bool.not_eq_true] at hvm
            simp only [hvm, Bool.false_eq_true, if_false]
            cases hscan : scanLevel (lowerStr (strTake input 255)) with
            | none => exact Or.inr (Or.inr (Or.inr (Or.inr (by simp))))
            | some v =>
              rcases volume_branch_cases [] (Or.inl rfl) v with h | h
              · exact Or.inr (Or.inl h)
              · exact Or.inr (Or.inr (Or.inr (Or.inr h)))
    · simp only [Bool.not_eq_true] at hv
      simp only [hv, Bool.false_eq_true, if_false]
      by_cases hbat : containsSub (lowerStr (strTake input 255)) "battery" = true
      · simp only [hbat, if_true]
        refine Or.inr (Or.inr (Or.inr (Or.inr ?_)))
        intro c hc
        simp only [List.mem_singleton] at hc
        subst hc
        rfl
      · simp only [Bool.not_eq_true] at hbat
        simp only [hbat, Bool.false_eq_true, if_false]
        by_cases ht : (containsSub (lowerStr (strTake input 255)) "time"
            || containsSub (lowerStr (strTake input 255)) "clock") = true
        · simp only [ht, if_true]
          exact Or.inr (Or.inr (Or.inr (Or.inr (by simp))))
        · simp only [Bool.not_eq_true] at ht
          simp only [ht, Bool.false_eq_true, if_false]
          by_cases hd : containsSub (lowerStr (strTake input 255)) "date" = true
          · simp only [hd, if_true]
            exact Or.inr (Or.inr (Or.inr (Or.inr (by simp))))
          · simp only [Bool.not_eq_true] at hd
            simp only [hd, Bool.false_eq_true, if_false]
            by_cases hs : (containsSub (lowerStr (strTake input 255)) "shutdown"
                || containsSub (lowerStr (strTake input 255)) "power off") = true
            · simp only [hs, if_true]
              exact Or.inr (Or.inr (Or.inr (Or.inr (by simp))))
            · simp only [Bool.not_eq_true] at hs
              simp only [hs, Bool.false_eq_true, if_false]
              by_cases hr : (containsSub (lowerStr (strTake input 255)) "reboot"
                  || containsSub (lowerStr (strTake input 255)) "restart") = true
              · simp only [hr, if_true]
                exact Or.inr (Or.inr (Or.inr (Or.inr (by simp))))
              · simp only [Bool.not_eq_true] at hr
                simp only [hr, Bool.false_eq_true, if_false]
                by_cases hw : containsSub (lowerStr (strTake input 255)) "wifi" = true
                · simp only [hw, if_true]
                  by_cases hen : (containsSub (lowerStr (strTake input 255)) "on"
                      || containsSub (lowerStr (strTake input 255)) "enable"
                      || (containsSub (lowerStr (strTake input 255)) "off"
                        || containsSub (lowerStr (strTake input 255)) "disable")) = true
                  · simp only [hen, if_true]
                    exact Or.inr (Or.inr (Or.inr (Or.inl ⟨_, rfl⟩)))
                  · simp only [Bool.not_eq_true] at hen
                    simp only [hen, Bool.false_eq_true, if_false]
                    exact Or.inr (Or.inr (Or.inr (Or.inr (by simp))))
                · simp only [Bool.not_eq_true] at hw
                  simp only [hw, Bool.false_eq_true, if_false]
                  exact Or.inr (Or.inr (Or.inr (Or.inr (by simp))))

/-- C10: on the fallback path (no remote provider configured, no
credentials, or the provider call failed), every chat whose text the
fallback interpreter resolves to a device-setting command performs the
corresponding HAL set call exactly twice with the same value: once
inside the interpreter, and once more when the JSON intent it emitted as
the reply is extracted by `agent_chat` and re-executed through the
dispatcher. -/
theorem fallback_chat_double_set (cfg : AgentConfig) (hal : Hal) (remote : Option String)
    (history : List ChatMsg) (input : String) (c : HalCall)
    (hpath : cfg.provider ≠ Provider.openai ∨ cfg.openai_api_key = "" ∨ remote = none)
    (hset : isSetCall c = true)
    (hmem : c ∈ (process_local_fallback hal input).calls) :
    countCall c (agent_chat cfg hal remote history input).calls = 2 := by
  rw [agent_chat_fallback_path cfg hal remote history input hpath]
  rcases fallback_shape hal input with ⟨v, g, h0, h100, hg, hfb⟩ | ⟨v, g, h0, h100, hg, hfb⟩
    | hfb | ⟨e, hfb⟩ | hfree
  · simp only [hfb] at hmem ⊢
    have hc : c = .brightnessSet v := by
      rcases hg with rfl | rfl
      · simpa using hmem
      · rcases (by simpa using hmem : c = HalCall.brightnessGet ∨ c = .brightnessSet v) with
          rfl | rfl
        · exact absurd hset (by simp [isSetCall])
        · rfl
    subst hc
    have hrt := intent_roundtrip v h0 h100
    simp only [hrt.2.2.1]
    unfold agent_execute_action
    rw [hrt.1, exec_brightness]
    rcases hg with rfl | rfl <;> simp [countCall]
  · simp only [hfb] at hmem ⊢
    have hc : c = .volumeSet v := by
      rcases hg with rfl | rfl
      · simpa using hmem
      · rcases (by simpa using hmem : c = HalCall.volumeGet ∨ c = .volumeSet v) with
          rfl | rfl
        · exact absurd hset (by simp [isSetCall])
        · rfl
    subst hc
    have hrt := intent_roundtrip v h0 h100
    simp only [hrt.2.2.2]
    unfold agent_execute_action
    rw [hrt.2.1, exec_volume]
    rcases hg with rfl | rfl <;> simp [countCall]
  · simp only [hfb] at hmem ⊢
    have hc : c = .muteSet true := by simpa using hmem
    subst hc
    have h1 : extractActionJson muteIntentStr = some muteIntentStr := by decide
    have h2 : cJSON_Parse muteIntentStr =
        some (.jobj [("action", .jstr "mute"), ("muted", .jbool true)]) := by decide
    simp only [h1]
    unfold agent_execute_action
    rw [h2, exec_mute_true]
    simp [countCall]
  · simp only [hfb] at hmem ⊢
    have hc : c = .wifiSet e := by simpa using hmem
    subst hc
    have h1 : extractActionJson (wifiIntentStr e) = some (wifiIntentStr e) := by
      cases e <;> decide
    have h2 : cJSON_Parse (wifiIntentStr e) =
        some (.jobj [("action", .jstr "wifi"), ("enabled", .jbool e)]) := by
      cases e <;> decide
    simp only [h1]
    unfold agent_execute_action
    rw [h2, exec_wifi]
    simp [countCall]
  · rw [hfree c hmem] at hset
    exact absurd hset (by simp)

theorem fallback_chat_double_set_witness :
    (cfgLocal.provider ≠ Provider.openai ∨ cfgLocal.openai_api_key = ""
      ∨ (none : Option String) = none)
    ∧ isSetCall (HalCall.muteSet true) = true
    ∧ HalCall.muteSet true ∈ (process_local_fallback halW "mute the volume").calls
    ∧ countCall (.muteSet true) (agent_chat cfgLocal halW none [] "mute the volume").calls = 2 :=
  ⟨Or.inl (by decide), by decide, by decide,
    fallback_chat_double_set cfgLocal halW none [] "mute the volume" (.muteSet true)
      (Or.inl (by decide)) (by decide) (by decide)⟩

end AiosAgent
